import Mathlib

/-!
Verification development for the monero-sybil-hunter repository.

The definitions below are a shallow embedding of the Python sources:
  - `src/storage.py`   (StorageManager: add_node, flush_buffer, upsert query)
  - `src/analyzer.py`  (NetworkAnalyzer.detect_sybils)
  - `src/crawler.py`   (MoneroCrawler: load_from_file, worker, scan_node)
Database state is modelled as a list of rows; the asyncpg batch upsert is
modelled row by row exactly as the SQL statement executes per buffered tuple.
-/

/-- One buffered tuple, as built by `StorageManager.add_node`
(`storage.py` lines 56-64): `(ip, port, version, user_agent, asn, isp, country)`. -/
structure NodeTuple where
  ip : String
  port : Int
  version : Int
  user_agent : String
  asn : String
  isp : String
  country : String
deriving DecidableEq, Repr

/-- One row of the `nodes` table (`storage.py` upsert query, lines 77-87). -/
structure NodeRow where
  ip : String
  port : Int
  protocol_version : Int
  user_agent : String
  asn : String
  isp_name : String
  country_code : String
  last_seen : Nat
deriving DecidableEq, Repr

/-- The `node_data` dict passed to `add_node`.  Every key may be absent
(Python dicts); `add_node` reads `ip` and `port` with `[]` (raising `KeyError`
when absent) and the rest with `.get(key, default)`. -/
structure NodeData where
  ip : Option String
  port : Option Int
  version : Option Int
  user_agent : Option String
  asn : Option String
  isp : Option String
  country : Option String
deriving DecidableEq, Repr

/-- Builds the buffered tuple from `node_data`, `storage.py` lines 56-64.
Python evaluates the tuple components left to right, so a missing `ip` raises
before a missing `port`; either raises `KeyError` before `append` is called. -/
def mkTuple (d : NodeData) : Except String NodeTuple :=
  match d.ip with
  | none => Except.error "KeyError: ip"
  | some ip =>
    match d.port with
    | none => Except.error "KeyError: port"
    | some port =>
      Except.ok
        { ip := ip
          port := port
          version := d.version.getD 0
          user_agent := d.user_agent.getD "Unknown"
          asn := d.asn.getD "Unknown"
          isp := d.isp.getD "Unknown"
          country := d.country.getD "XX" }

/-- The effect of the upsert SQL statement (`storage.py` lines 77-87) for one
tuple: on conflict on `ip` it sets `last_seen`, `protocol_version`,
`user_agent`, `asn` and `isp_name`; it does not touch `port` or
`country_code`.  Without conflict it inserts the full row with
`last_seen = NOW()` (modelled by the `now` argument). -/
def upsert (now : Nat) (db : List NodeRow) (t : NodeTuple) : List NodeRow :=
  if db.any (fun r => r.ip == t.ip) then
    db.map (fun r =>
      if r.ip == t.ip then
        { r with last_seen := now, protocol_version := t.version,
                 user_agent := t.user_agent, asn := t.asn, isp_name := t.isp }
      else r)
  else
    db ++ [{ ip := t.ip, port := t.port, protocol_version := t.version,
             user_agent := t.user_agent, asn := t.asn, isp_name := t.isp,
             country_code := t.country, last_seen := now }]

/-- `conn.executemany(query, self.node_buffer)` runs the upsert statement once
per buffered tuple, in buffer order. -/
def flushDb (now : Nat) (db : List NodeRow) (buf : List NodeTuple) : List NodeRow :=
  buf.foldl (upsert now) db

/-- State of a `StorageManager`: the in-memory `node_buffer` and the committed
database contents. -/
structure StorageState where
  node_buffer : List NodeTuple
  db : List NodeRow
deriving DecidableEq, Repr

/-- `StorageManager.flush_buffer` (`storage.py` lines 69-96).  `ok` abstracts
whether `executemany` succeeds.  Empty buffer: early return.  Success: commit
the batch and clear the buffer.  Failure: the exception is caught and logged
(returned here as the second component); buffer and database are unchanged. -/
def flush_buffer (ok : Bool) (now : Nat) (s : StorageState) : StorageState × Option String :=
  if s.node_buffer.isEmpty then (s, none)
  else if ok then
    ({ node_buffer := [], db := flushDb now s.db s.node_buffer }, none)
  else
    (s, some "Failed to write batch")

/-- `StorageManager.BATCH_SIZE` (`storage.py` line 16). -/
def BATCH_SIZE : Nat := 50

/-- `StorageManager.add_node` (`storage.py` lines 51-67): build the tuple
(possibly raising `KeyError`, in which case the state is unchanged), append
it, and flush when the buffer length reaches `BATCH_SIZE`. -/
def add_node (ok : Bool) (now : Nat) (s : StorageState) (d : NodeData) :
    StorageState × Except String (Option String) :=
  match mkTuple d with
  | Except.error e => (s, Except.error e)
  | Except.ok t =>
    let s1 : StorageState := { s with node_buffer := s.node_buffer ++ [t] }
    if BATCH_SIZE ≤ s1.node_buffer.length then
      let p := flush_buffer ok now s1
      (p.1, Except.ok p.2)
    else
      (s1, Except.ok none)

/-- A whole sequence of `add_node` calls (every flush outcome fixed to `ok`);
stops at the first raised `KeyError`, as the Python caller would. -/
def addMany (ok : Bool) (now : Nat) : StorageState → List NodeData → Except String StorageState
  | s, [] => Except.ok s
  | s, d :: ds =>
    match add_node ok now s d with
    | (s1, Except.ok _) => addMany ok now s1 ds
    | (_, Except.error e) => Except.error e

/-- A plain liveness-probe event as a worker hands it to `add_node`. -/
def sampleData : NodeData :=
  { ip := some "9.9.9.9", port := some 18080, version := none,
    user_agent := none, asn := none, isp := none, country := none }

/-- A row whose `isp_name`/`country_code` were set by the enricher
(`enricher.py` resolve_ip writes real `country`/`isp` values). -/
def enrRow : NodeRow :=
  { ip := "1.1.1.1", port := 18080, protocol_version := 1,
    user_agent := "Monero/0.18.0.0", asn := "AS24940",
    isp_name := "Hetzner Online GmbH", country_code := "DE", last_seen := 3 }

/-- A bare liveness-probe tuple for the same ip, carrying only placeholder
metadata. -/
def probeTup : NodeTuple :=
  { ip := "1.1.1.1", port := 18080, version := 1,
    user_agent := "Monero/0.18.0.0", asn := "Unknown",
    isp := "Unknown", country := "XX" }

/-- One output row of the detector query in `analyzer.py` `detect_sybils`
(lines 33-53): `isp_name`, `cnt = count(*)` and
`network_percent = count(*) / full_count * 100`. -/
structure SybilGroup where
  isp_name : String
  cnt : Nat
  network_percent : ℚ
deriving DecidableEq, Repr

/-- `GROUP BY isp_name`: bump the count of `name`, keeping first-occurrence
order of the groups. -/
def bumpCount : List (String × Nat) → String → List (String × Nat)
  | [], name => [(name, 1)]
  | (n, c) :: rest, name =>
    if n == name then (n, c + 1) :: rest else (n, c) :: bumpCount rest name

/-- The per-organization counts of a table state. -/
def groupCounts (db : List NodeRow) : List (String × Nat) :=
  db.foldl (fun acc r => bumpCount acc r.isp_name) []

/-- `count(*)::float / full_count * 100`, in exact arithmetic. -/
def pct (total c : Nat) : ℚ :=
  (c : ℚ) / (total : ℚ) * 100

/-- The `ORDER BY network_percent DESC` order: `a` before `b` when
`b.network_percent ≤ a.network_percent`. -/
def pctGE (a b : SybilGroup) : Prop :=
  b.network_percent ≤ a.network_percent

instance : DecidableRel pctGE :=
  fun a b => decidable_of_iff (b.network_percent ≤ a.network_percent) Iff.rfl

instance : IsTotal SybilGroup pctGE :=
  ⟨fun a b => le_total b.network_percent a.network_percent⟩

instance : IsTrans SybilGroup pctGE :=
  ⟨fun _ _ _ hab hbc => le_trans hbc hab⟩

/-- All organization groups of the table with their counts and exact
percentages (the rows produced before `HAVING`/threshold filtering). -/
def allGroups (db : List NodeRow) : List SybilGroup :=
  (groupCounts db).map
    (fun p => { isp_name := p.1, cnt := p.2, network_percent := pct db.length p.2 })

/-- `NetworkAnalyzer.detect_sybils` (`analyzer.py` lines 33-53): group the
`nodes` rows by `isp_name`, keep groups with `count(*) > 5` (`HAVING`),
compute each group's share of the total row count, sort descending by that
share (`ORDER BY network_percent DESC`), and report the rows whose share
exceeds 20 (the Python loop prints exactly those, in query order). -/
def detect_sybils (db : List NodeRow) : List SybilGroup :=
  (List.insertionSort pctGE
    (((groupCounts db).filter (fun p => 5 < p.2)).map
      (fun p => { isp_name := p.1, cnt := p.2, network_percent := pct db.length p.2 }))).filter
    (fun g => 20 < g.network_percent)

/-- Python `str.strip()` on a line, over its character sequence: drop leading
and trailing whitespace. -/
def pyStrip (l : List Char) : List Char :=
  ((l.dropWhile Char.isWhitespace).reverse.dropWhile Char.isWhitespace).reverse

/-- Python `s.split(':')`: cut the character sequence at every colon; the
result always has one more part than there are colons, so with a colon
present `parts[1]` exists. -/
def splitColon : List Char → List (List Char)
  | [] => [[]]
  | c :: cs =>
    if c = ':' then [] :: splitColon cs
    else
      match splitColon cs with
      | [] => [[c]]
      | p :: ps => (c :: p) :: ps

/-- Decimal value of a digit sequence. -/
def digitsToNat (l : List Char) : Nat :=
  l.foldl (fun acc c => 10 * acc + (c.toNat - 48)) 0

/-- A nonempty all-digit sequence, else `none`. -/
def decDigits (l : List Char) : Option Nat :=
  if l.isEmpty then none
  else if l.all Char.isDigit then some (digitsToNat l) else none

/-- Python `int(s)`: strip whitespace, optional sign, decimal digits;
anything else raises `ValueError` (modelled as `none`). -/
def pyInt (s : List Char) : Option Int :=
  match pyStrip s with
  | '-' :: rest => (decDigits rest).map (fun n => -(n : Int))
  | '+' :: rest => (decDigits rest).map (fun n => (n : Int))
  | t => (decDigits t).map (fun n => (n : Int))

/-- One iteration of the loop in `MoneroCrawler.load_from_file`
(`crawler.py` lines 17-38): strip the line; skip blank lines and comments;
with a colon, take `parts[0]` as host and `int(parts[1])` as port, falling
back to 18080 when `int` raises; without a colon the whole line is the host
and the port is 18080. -/
def parse_line (line : List Char) : Option (List Char × Int) :=
  if (pyStrip line).isEmpty then none
  else if (pyStrip line).headD ' ' = '#' then none
  else if (pyStrip line).contains ':' then
    some ((splitColon (pyStrip line)).headD [],
      match pyInt ((splitColon (pyStrip line)).getD 1 []) with
      | some p => p
      | none => 18080)
  else some (pyStrip line, 18080)

/-- `load_from_file` over the lines of `targets.txt`: every non-ignored line
enqueues exactly one target. -/
def load_from_file (lines : List (List Char)) : List (List Char × Int) :=
  lines.filterMap parse_line

/-- Shared crawler state (`crawler.py`): the FIFO target queue, the
`seen_ips` set, and the log of probes started (`scan_node` calls). -/
structure CrawlState where
  queue : List (String × Int)
  seen_ips : List String
  probed : List (String × Int)
deriving DecidableEq, Repr

/-- Atomic steps of the crawler (`crawler.py` lines 82-93).  In
`worker`, the sequence `queue.get()` / `if ip not in self.seen_ips` /
`seen_ips.add(ip)` runs with no `await` between the membership test and the
insertion, so on the single-threaded asyncio loop it is one atomic step;
`scan_node` is recorded at that same step because the claiming worker alone
performs it.  `enqueue` covers `load_from_file`/`fetch_public_nodes` puts. -/
inductive WorkerStep : CrawlState → CrawlState → Prop where
  | probe (ip : String) (port : Int) (q : List (String × Int)) (seen : List String)
      (pr : List (String × Int)) (h : ip ∉ seen) :
      WorkerStep ⟨(ip, port) :: q, seen, pr⟩ ⟨q, ip :: seen, (ip, port) :: pr⟩
  | skip (ip : String) (port : Int) (q : List (String × Int)) (seen : List String)
      (pr : List (String × Int)) (h : ip ∈ seen) :
      WorkerStep ⟨(ip, port) :: q, seen, pr⟩ ⟨q, seen, pr⟩
  | enqueue (tgt : String × Int) (q : List (String × Int)) (seen : List String)
      (pr : List (String × Int)) :
      WorkerStep ⟨q, seen, pr⟩ ⟨q ++ [tgt], seen, pr⟩

/-- Invariant carried through a crawl: the probed hosts are pairwise distinct
and every probed host has been claimed in `seen_ips`. -/
def CrawlInv (s : CrawlState) : Prop :=
  (s.probed.map Prod.fst).Nodup ∧ ∀ ip, ip ∈ s.probed.map Prod.fst → ip ∈ s.seen_ips

/-- The DiscoveryEvent synthesized by `MoneroCrawler.scan_node`
(`crawler.py` lines 95-114) on a successful connection: `get_asn_data(ip)` is
computed once and used for both `asn` and `isp`; `version` is the literal 1
and `user_agent` the literal string. -/
def scan_node_event (asnOf geoOf : String → String) (ip : String) (port : Int) : NodeData :=
  { ip := some ip, port := some port, version := some 1,
    user_agent := some "Monero/0.18.0.0",
    asn := some (asnOf ip), isp := some (asnOf ip), country := some (geoOf ip) }

example : (flush_buffer true 5 { node_buffer := [probeTup], db := [enrRow] }).1.db.map
    (fun r => r.isp_name) = ["Unknown"] := by decide

example : (flush_buffer true 5 { node_buffer := [probeTup], db := [enrRow] }).1.db.map
    (fun r => r.country_code) = ["DE"] := by decide

example : parse_line "  1.2.3.4:18089 ".data = some ("1.2.3.4".data, 18089) := by decide

example : parse_line "5.6.7.8:abc".data = some ("5.6.7.8".data, 18080) := by decide

example : parse_line " # comment".data = none := by decide

example : parse_line "9.9.9.9".data = some ("9.9.9.9".data, 18080) := by decide

example : parse_line "node.example.org:-3".data = some ("node.example.org".data, -3) := by decide

example : detect_sybils [] = [] := by decide

/-- Buffer tuple used to pre-fill a buffer in witnesses. -/
def tup7 : NodeTuple :=
  { ip := "7.7.7.7", port := 18080, version := 1, user_agent := "Monero/0.18.0.0",
    asn := "Unknown", isp := "Unknown", country := "XX" }

/-- A fully-populated `node_data` dict. -/
def data8 : NodeData :=
  { ip := some "8.8.8.8", port := some 18080, version := some 1,
    user_agent := some "Monero/0.18.0.0", asn := some "AS1",
    isp := some "ISP1", country := some "NL" }

/-- The tuple `add_node` builds from `data8`. -/
def tup8 : NodeTuple :=
  { ip := "8.8.8.8", port := 18080, version := 1, user_agent := "Monero/0.18.0.0",
    asn := "AS1", isp := "ISP1", country := "NL" }

/-- A dict with no `ip` key. -/
def dataNoIp : NodeData :=
  { ip := none, port := some 1, version := none, user_agent := none,
    asn := none, isp := none, country := none }

/-- A dict with an `ip` key but no `port` key. -/
def dataNoPort : NodeData :=
  { ip := some "2.2.2.2", port := none, version := none, user_agent := none,
    asn := none, isp := none, country := none }

/-- A dict with only the required keys. -/
def dataBare : NodeData :=
  { ip := some "1.2.3.4", port := some 18080, version := none, user_agent := none,
    asn := none, isp := none, country := none }

theorem add_node_of_ok (ok : Bool) (now : Nat) (s : StorageState) (d : NodeData)
    (t : NodeTuple) (ht : mkTuple d = Except.ok t) :
    add_node ok now s d =
      if BATCH_SIZE ≤ s.node_buffer.length + 1 then
        ((flush_buffer ok now { s with node_buffer := s.node_buffer ++ [t] }).1,
         Except.ok (flush_buffer ok now { s with node_buffer := s.node_buffer ++ [t] }).2)
      else ({ s with node_buffer := s.node_buffer ++ [t] }, Except.ok none) := by
  simp [add_node, ht]

theorem flush_ok_clears (now : Nat) (s : StorageState) :
    (flush_buffer true now s).1.node_buffer = [] := by
  by_cases h : s.node_buffer.isEmpty
  · simp [flush_buffer, h, List.isEmpty_iff.mp h]
  · simp [flush_buffer, h]

theorem upsert_keeps (now : Nat) (t : NodeTuple) (db : List NodeRow) (rip cc : String)
    (hex : ∃ r0 ∈ db, r0.ip = rip)
    (hall : ∀ r' ∈ db, r'.ip = rip → r'.country_code = cc) :
    (∃ r0 ∈ upsert now db t, r0.ip = rip) ∧
    ∀ r' ∈ upsert now db t, r'.ip = rip → r'.country_code = cc := by
  unfold upsert
  split
  case isTrue hany =>
    constructor
    · obtain ⟨r0, hr0, hip⟩ := hex
      refine ⟨_, List.mem_map_of_mem _ hr0, ?_⟩
      split <;> simp [hip]
    · intro r' hr' hip'
      obtain ⟨r0, hr0, heq⟩ := List.mem_map.mp hr'
      by_cases hb : (r0.ip == t.ip) = true
      · rw [if_pos hb] at heq
        rw [← heq] at hip' ⊢
        exact hall r0 hr0 hip'
      · rw [if_neg hb] at heq
        rw [← heq] at hip' ⊢
        exact hall r0 hr0 hip'
  case isFalse hany =>
    constructor
    · obtain ⟨r0, hr0, hip⟩ := hex
      exact ⟨r0, List.mem_append_left _ hr0, hip⟩
    · intro r' hr' hip'
      rcases List.mem_append.mp hr' with h1 | h2
      · exact hall r' h1 hip'
      · obtain ⟨r0, hr0, hip0⟩ := hex
        rw [List.mem_singleton.mp h2] at hip'
        have htip : t.ip = rip := hip'
        exact absurd (List.any_eq_true.mpr ⟨r0, hr0, by simp [hip0, htip]⟩) hany

theorem flushDb_keeps (now : Nat) (buf : List NodeTuple) (rip cc : String) :
    ∀ db : List NodeRow, (∃ r0 ∈ db, r0.ip = rip) →
      (∀ r' ∈ db, r'.ip = rip → r'.country_code = cc) →
      ∀ r' ∈ flushDb now db buf, r'.ip = rip → r'.country_code = cc := by
  induction buf with
  | nil => intro db _ hall; exact hall
  | cons t ts ih =>
    intro db hex hall
    have h := upsert_keeps now t db rip cc hex hall
    exact ih (upsert now db t) h.1 h.2

/-- Claim C1 (amended): on a flush, for an existing row whose ip occurs in the
buffer, the upsert updates `last_seen`, `protocol_version`, `user_agent`,
`asn` AND `isp_name` (organization) with the probe's values, and preserves
only `country_code`: every post-flush row with the row's ip keeps its
pre-flush `country_code`, and flushing a probe tuple for that ip stores the
tuple's `isp` as the row's organization. -/
theorem C1_amended_thm (now : Nat) (buf : List NodeTuple) (db : List NodeRow) (r : NodeRow)
    (hmem : r ∈ db) (huniq : ∀ r' ∈ db, r'.ip = r.ip → r' = r) :
    (∀ r' ∈ flushDb now db buf, r'.ip = r.ip → r'.country_code = r.country_code) ∧
    ∀ t : NodeTuple, t.ip = r.ip →
      { r with last_seen := now, protocol_version := t.version, user_agent := t.user_agent,
               asn := t.asn, isp_name := t.isp } ∈ flushDb now db [t] := by
  constructor
  · exact flushDb_keeps now buf r.ip r.country_code db ⟨r, hmem, rfl⟩
      (fun r' h hip => by rw [huniq r' h hip])
  · intro t hip
    show { r with last_seen := now, protocol_version := t.version, user_agent := t.user_agent,
                  asn := t.asn, isp_name := t.isp } ∈ upsert now db t
    unfold upsert
    rw [if_pos (List.any_eq_true.mpr ⟨r, hmem, by simp [hip]⟩)]
    have h0 := List.mem_map_of_mem
      (fun x => if x.ip == t.ip then
        { x with last_seen := now, protocol_version := t.version, user_agent := t.user_agent,
                 asn := t.asn, isp_name := t.isp } else x) hmem
    simpa [hip] using h0

/-- Claim C1 counterexample: a row enriched to organization
"Hetzner Online GmbH" / country "DE"; flushing a bare probe event for the
same ip leaves `country_code` at "DE" but overwrites `isp_name` with the
probe's placeholder "Unknown", so the organization field is NOT preserved as
the claim states. -/
theorem C1_counterexample :
    (flush_buffer true 5 { node_buffer := [probeTup], db := [enrRow] }).1.db.map
        (fun r => r.isp_name) = ["Unknown"] ∧
    (flush_buffer true 5 { node_buffer := [probeTup], db := [enrRow] }).1.db.map
        (fun r => r.country_code) = ["DE"] ∧
    enrRow.isp_name = "Hetzner Online GmbH" ∧
    probeTup.ip = enrRow.ip ∧ probeTup.isp = "Unknown" := by decide

/-- Witness for C1 (amended) at a concrete store: the enriched row's
`country_code` survives the flush of a probe event for the same ip. -/
theorem C1_witness :
    ((flushDb 5 [enrRow] [probeTup]).headD enrRow).country_code = "DE" := by
  have h := (C1_amended_thm 5 [probeTup] [enrRow] enrRow (by decide)
    (fun r' hr' _ => List.mem_singleton.mp hr')).1
  exact h _ (by decide) (by decide)

/-- Claim C3 (amended): when the buffer length reaches `BATCH_SIZE` (50) the
`add_node` call performs the flush before returning; when the triggered
flush succeeds, the buffer length immediately after any `add_node` return is
at most 50 (it is 0 after a flush and below 50 otherwise).  (A failed flush
can leave the buffer above the threshold, see the counterexample.) -/
theorem C3_amended_thm (ok : Bool) (now : Nat) (s : StorageState) (d : NodeData)
    (t : NodeTuple) (ht : mkTuple d = Except.ok t) :
    (BATCH_SIZE ≤ s.node_buffer.length + 1 →
      add_node ok now s d =
        ((flush_buffer ok now { s with node_buffer := s.node_buffer ++ [t] }).1,
         Except.ok (flush_buffer ok now { s with node_buffer := s.node_buffer ++ [t] }).2)) ∧
    ∀ s1 w, add_node true now s d = (s1, w) → s1.node_buffer.length ≤ BATCH_SIZE := by
  constructor
  · intro hlen
    rw [add_node_of_ok ok now s d t ht, if_pos hlen]
  · intro s1 w h
    rw [add_node_of_ok true now s d t ht] at h
    by_cases hlen : BATCH_SIZE ≤ s.node_buffer.length + 1
    · rw [if_pos hlen] at h
      have h1 : (flush_buffer true now { s with node_buffer := s.node_buffer ++ [t] }).1 = s1 :=
        congrArg Prod.fst h
      rw [← h1, flush_ok_clears now _]
      simp
    · rw [if_neg hlen] at h
      have h1 : ({ s with node_buffer := s.node_buffer ++ [t] } : StorageState) = s1 :=
        congrArg Prod.fst h
      rw [← h1]
      have h2 : (s.node_buffer ++ [t]).length = s.node_buffer.length + 1 := by simp
      show (s.node_buffer ++ [t]).length ≤ BATCH_SIZE
      omega

/-- Claim C3 counterexample: with the database unreachable (every flush
fails), 51 consecutive `add_node` calls all return normally and leave 51
tuples in the buffer — strictly more than the flush threshold of 50 — so the
invariant "buffer size ≤ threshold immediately after any Add returns" is
false on the code. -/
theorem C3_counterexample :
    (match addMany false 0 { node_buffer := [], db := [] }
        (List.replicate 51 sampleData) with
     | Except.ok s => s.node_buffer.length
     | Except.error _ => 0) = 51 ∧ ¬ (51 ≤ BATCH_SIZE) := by decide

/-- Witness for C3 (amended): a 49-tuple buffer plus one `add_node` reaches
the threshold, the flush runs before returning and the resulting buffer
length is within the bound. -/
theorem C3_witness :
    add_node true 7 { node_buffer := List.replicate 49 tup7, db := [] } data8 =
      ((flush_buffer true 7
          { node_buffer := List.replicate 49 tup7 ++ [tup8], db := [] }).1,
       Except.ok (flush_buffer true 7
          { node_buffer := List.replicate 49 tup7 ++ [tup8], db := [] }).2) ∧
    (add_node true 7 { node_buffer := List.replicate 49 tup7, db := [] } data8).1.node_buffer.length
      ≤ BATCH_SIZE := by
  have h := C3_amended_thm true 7 { node_buffer := List.replicate 49 tup7, db := [] }
    data8 tup8 (by rfl)
  exact ⟨h.1 (by decide), h.2 _ _ rfl⟩

/-- Claim C4: a failing flush leaves the whole state (buffer and committed
rows) exactly intact and reports the failure as a returned log message
instead of raising; a successful flush clears the buffer to empty. -/
theorem C4_flush_thm (now : Nat) (s : StorageState) :
    (flush_buffer false now s).1 = s ∧
    (flush_buffer false now s).2 =
      (if s.node_buffer.isEmpty then none else some "Failed to write batch") ∧
    (flush_buffer true now s).1.node_buffer = [] ∧
    (flush_buffer true now s).2 = none := by
  by_cases h : s.node_buffer.isEmpty
  · simp [flush_buffer, h, List.isEmpty_iff.mp h]
  · simp [flush_buffer, h]

/-- Claim C10: `add_node` replaces missing optional keys by the fixed
defaults (version 0, user_agent "Unknown", asn "Unknown", isp "Unknown",
country "XX") in the buffered tuple; a dict missing `ip` or `port` makes it
raise `KeyError` with the state unchanged — nothing is appended; a valid
tuple below the threshold is appended as built. -/
theorem C10_add_node_thm (ok : Bool) (now : Nat) (s : StorageState) (d : NodeData) :
    (d.ip = none → add_node ok now s d = (s, Except.error "KeyError: ip")) ∧
    (∀ ip, d.ip = some ip → d.port = none →
      add_node ok now s d = (s, Except.error "KeyError: port")) ∧
    (∀ ip port, d.ip = some ip → d.port = some port →
      mkTuple d = Except.ok
        { ip := ip, port := port, version := d.version.getD 0,
          user_agent := d.user_agent.getD "Unknown", asn := d.asn.getD "Unknown",
          isp := d.isp.getD "Unknown", country := d.country.getD "XX" }) ∧
    ∀ t, mkTuple d = Except.ok t → s.node_buffer.length + 1 < BATCH_SIZE →
      add_node ok now s d = ({ s with node_buffer := s.node_buffer ++ [t] }, Except.ok none) := by
  refine ⟨?_, ?_, ?_, ?_⟩
  · intro h; simp [add_node, mkTuple, h]
  · intro ip hip hp; simp [add_node, mkTuple, hip, hp]
  · intro ip port hip hp; simp [mkTuple, hip, hp]
  · intro t ht hlen
    rw [add_node_of_ok ok now s d t ht, if_neg (by omega)]

/-- Claim C2: `detect_sybils` reports exactly the organization groups with
`count(*) > 5` and a share of the total strictly above 20 percent, in
descending order of that share. -/
theorem C2_detect_thm (db : List NodeRow) :
    List.Sorted pctGE (detect_sybils db) ∧
    ∀ g : SybilGroup, g ∈ detect_sybils db ↔
      (g ∈ allGroups db ∧ 5 < g.cnt ∧ 20 < g.network_percent) := by
  constructor
  · exact List.Pairwise.filter _ (List.sorted_insertionSort pctGE _)
  · intro g
    unfold detect_sybils allGroups
    constructor
    · intro hmem
      obtain ⟨hin, h20⟩ := List.mem_filter.mp hmem
      rw [List.mem_insertionSort] at hin
      obtain ⟨p, hp, hfp⟩ := List.mem_map.mp hin
      obtain ⟨hpgc, h5⟩ := List.mem_filter.mp hp
      refine ⟨List.mem_map.mpr ⟨p, hpgc, hfp⟩, ?_, of_decide_eq_true h20⟩
      rw [← hfp]
      exact of_decide_eq_true h5
    · intro hcon
      obtain ⟨hall, h5, h20⟩ := hcon
      obtain ⟨p, hpgc, hfp⟩ := List.mem_map.mp hall
      refine List.mem_filter.mpr ⟨?_, decide_eq_true h20⟩
      rw [List.mem_insertionSort]
      refine List.mem_map.mpr ⟨p, List.mem_filter.mpr ⟨hpgc, decide_eq_true ?_⟩, hfp⟩
      rw [← hfp] at h5
      exact h5

/-- Claim C8: on an empty store the detector yields an empty report (no
group ever forms, so no percentage is ever computed). -/
theorem C8_detect_empty : detect_sybils [] = [] := rfl

/-- Every crawler step preserves the crawl invariant. -/
theorem workerStep_inv {s1 s2 : CrawlState} (h : WorkerStep s1 s2) (hinv : CrawlInv s1) :
    CrawlInv s2 := by
  cases h with
  | probe ip port q seen pr hnot =>
    obtain ⟨hnodup, hsub⟩ := hinv
    constructor
    · refine List.Nodup.cons ?_ hnodup
      intro hmem
      exact hnot (hsub ip hmem)
    · intro x hx
      rcases List.mem_cons.mp hx with rfl | hx
      · exact List.mem_cons_self _ _
      · exact List.mem_cons_of_mem _ (hsub x hx)
  | skip ip port q seen pr hmem => exact hinv
  | enqueue tgt q seen pr => exact hinv

/-- Claim C5: in any run starting from a loaded queue, an empty seen-set and
no probes, every reachable crawl state has pairwise-distinct probed hosts:
no host is ever probed twice.  The membership test and insertion into
`seen_ips` form one atomic step of the model because the Python code runs
them with no `await` in between on the single-threaded event loop. -/
theorem C5_no_duplicate_probe (targets : List (String × Int)) (s : CrawlState)
    (h : Relation.ReflTransGen WorkerStep
      { queue := targets, seen_ips := [], probed := [] } s) :
    (s.probed.map Prod.fst).Nodup := by
  have hinv : CrawlInv s := by
    induction h with
    | refl => exact ⟨List.nodup_nil, fun ip hip => absurd hip (List.not_mem_nil ip)⟩
    | tail hab hbc ih => exact workerStep_inv hbc ih
  exact hinv.1

/-- Witness for C5: a queue holding the same host twice; the first dequeue
probes it, the second is skipped, and the probe log stays duplicate-free. -/
theorem C5_witness :
    (({ queue := [], seen_ips := ["1.2.3.4"],
        probed := [("1.2.3.4", 18080)] } : CrawlState).probed.map Prod.fst).Nodup := by
  have h1 : WorkerStep
      { queue := [("1.2.3.4", 18080), ("1.2.3.4", 18081)], seen_ips := [], probed := [] }
      { queue := [("1.2.3.4", 18081)], seen_ips := ["1.2.3.4"],
        probed := [("1.2.3.4", 18080)] } :=
    WorkerStep.probe "1.2.3.4" 18080 [("1.2.3.4", 18081)] [] [] (by simp)
  have h2 : WorkerStep
      { queue := [("1.2.3.4", 18081)], seen_ips := ["1.2.3.4"],
        probed := [("1.2.3.4", 18080)] }
      { queue := [], seen_ips := ["1.2.3.4"], probed := [("1.2.3.4", 18080)] } :=
    WorkerStep.skip "1.2.3.4" 18081 [] ["1.2.3.4"] [("1.2.3.4", 18080)] (by simp)
  exact C5_no_duplicate_probe [("1.2.3.4", 18080), ("1.2.3.4", 18081)] _
    (Relation.ReflTransGen.tail (Relation.ReflTransGen.tail Relation.ReflTransGen.refl h1) h2)

/-- Claim C7: a stripped-blank line or a line starting with a comment mark
enqueues nothing; a colon-free line enqueues the stripped line with port
18080; with a colon, a parsable `int` port is taken as is, and an unparsable
port falls back to 18080 instead of rejecting the line. -/
theorem C7_parse_thm (line : List Char) :
    ((pyStrip line).isEmpty = true → parse_line line = none) ∧
    ((pyStrip line).headD ' ' = '#' → parse_line line = none) ∧
    ((pyStrip line).isEmpty = false → ¬ (pyStrip line).headD ' ' = '#' →
      (pyStrip line).contains ':' = false → parse_line line = some (pyStrip line, 18080)) ∧
    (∀ p : Int, (pyStrip line).isEmpty = false → ¬ (pyStrip line).headD ' ' = '#' →
      (pyStrip line).contains ':' = true →
      pyInt ((splitColon (pyStrip line)).getD 1 []) = some p →
      parse_line line = some ((splitColon (pyStrip line)).headD [], p)) ∧
    ((pyStrip line).isEmpty = false → ¬ (pyStrip line).headD ' ' = '#' →
      (pyStrip line).contains ':' = true →
      pyInt ((splitColon (pyStrip line)).getD 1 []) = none →
      parse_line line = some ((splitColon (pyStrip line)).headD [], 18080)) := by
  refine ⟨?_, ?_, ?_, ?_, ?_⟩
  · intro h; unfold parse_line; rw [if_pos h]
  · intro h
    by_cases he : (pyStrip line).isEmpty = true
    · unfold parse_line; rw [if_pos he]
    · unfold parse_line; rw [if_neg he, if_pos h]
  · intro h1 h2 h3
    unfold parse_line
    rw [if_neg (by simp [h1]), if_neg h2,
      if_neg (fun hc => Bool.false_ne_true (h3 ▸ hc))]
  · intro p h1 h2 h3 hp
    unfold parse_line
    rw [if_neg (by simp [h1]), if_neg h2, if_pos h3, hp]
  · intro h1 h2 h3 hp
    unfold parse_line
    rw [if_neg (by simp [h1]), if_neg h2, if_pos h3, hp]

/-- Witness for C7 at concrete lines: comment and blank lines are dropped, a
numeric port is kept, an alphabetic port and a bare host fall back to
18080. -/
theorem C7_witness :
    parse_line " # seed list".data = none ∧
    parse_line "".data = none ∧
    parse_line "1.2.3.4:18089".data = some ("1.2.3.4".data, 18089) ∧
    parse_line "5.6.7.8:abc".data = some ("5.6.7.8".data, 18080) ∧
    parse_line "9.9.9.9".data = some ("9.9.9.9".data, 18080) := by
  refine ⟨(C7_parse_thm _).2.1 (by decide), (C7_parse_thm _).1 (by decide), ?_, ?_, ?_⟩
  · have h := (C7_parse_thm "1.2.3.4:18089".data).2.2.2.1 18089
      (by decide) (by decide) (by decide) (by decide)
    exact h.trans (by decide)
  · have h := (C7_parse_thm "5.6.7.8:abc".data).2.2.2.2
      (by decide) (by decide) (by decide) (by decide)
    exact h.trans (by decide)
  · have h := (C7_parse_thm "9.9.9.9".data).2.2.1 (by decide) (by decide) (by decide)
    exact h.trans (by decide)

/-- Claim C9: every DiscoveryEvent a worker synthesizes on a successful probe
carries the one resolver value in both its `asn` and `isp` (organization)
fields, protocol version 1, and the fixed user agent string. -/
theorem C9_scan_event_thm (asnOf geoOf : String → String) (ip : String) (port : Int) :
    (scan_node_event asnOf geoOf ip port).asn = (scan_node_event asnOf geoOf ip port).isp ∧
    (scan_node_event asnOf geoOf ip port).version = some 1 ∧
    (scan_node_event asnOf geoOf ip port).user_agent = some "Monero/0.18.0.0" :=
  ⟨rfl, rfl, rfl⟩

/-- Witness for C10 at concrete dicts: missing `ip` and missing `port` raise
with the store untouched; a bare `ip`/`port` dict is buffered with all the
documented defaults. -/
theorem C10_witness :
    add_node true 0 { node_buffer := [], db := [] } dataNoIp =
      ({ node_buffer := [], db := [] }, Except.error "KeyError: ip") ∧
    add_node true 0 { node_buffer := [], db := [] } dataNoPort =
      ({ node_buffer := [], db := [] }, Except.error "KeyError: port") ∧
    mkTuple dataBare = Except.ok
      { ip := "1.2.3.4", port := 18080, version := 0, user_agent := "Unknown",
        asn := "Unknown", isp := "Unknown", country := "XX" } := by
  refine ⟨(C10_add_node_thm true 0 { node_buffer := [], db := [] } dataNoIp).1 rfl,
    (C10_add_node_thm true 0 { node_buffer := [], db := [] } dataNoPort).2.1 "2.2.2.2" rfl rfl,
    (C10_add_node_thm true 0 { node_buffer := [], db := [] } dataBare).2.2.1 "1.2.3.4" 18080 rfl rfl⟩
